import Mathlib

/-!
Shallow embedding of `src/fitness.py` of the repository
GeneticAlgorithmForFairness.

The python code works on pandas DataFrames whose relevant columns are the
protected attribute, the target column and the model predictions.  A row of
the test dataset is embedded as a `Row` carrying its pandas index, its
protected-attribute value and its target value (the remaining feature columns
never enter the fairness computation).  After the label encoding performed by
`run_experiments_rq2.py` both the protected attribute and the predictions are
integers, so both kinds of values live in `Int`; rational numbers stand for
the python floats.  External library calls (sklearn training, prediction and
the four classification metrics, and the three mitigation-technique
constructors of `model_optimization`) are parameters of the embedding: they
are oracles supplying predictions and metric values, while everything the
repository itself computes is defined below.
-/

namespace GeneticFairness

/-- A record of the test dataset: its pandas index, the value of the
protected-attribute column and the value of the target column. -/
structure Row where
  idx : Nat
  protected_attribute : Int
  target : Int
deriving DecidableEq, Repr

/-- `test_data.loc[i]`: the row of the dataset carrying pandas index `i`
(the first such row; the input contract assumes unique indices). -/
def getRow (test_data : List Row) (i : Nat) : Option Row :=
  test_data.find? (fun r => r.idx == i)

/-- `series.value_counts(normalize=True)` evaluated at the value `v`: the
fraction of the entries of `xs` that equal `v` (zero for the empty series,
matching pandas, because `q / 0 = 0` in `ℚ`). -/
def freq (xs : List Int) (v : Int) : ℚ :=
  (xs.count v : ℚ) / (xs.length : ℚ)

/-- `np.abs(a - b).sum()` applied to the two normalized value-counts series of
`xs` and `ys`.  Pandas aligns the two series on the union of their keys, a key
present on only one side produces `NaN`, and `Series.sum()` skips `NaN`
entries, so the result is the sum of the absolute frequency differences over
the keys that occur in *both* lists. -/
def absDiffSum (xs ys : List Int) : ℚ :=
  ∑ v ∈ xs.toFinset ∩ ys.toFinset, |freq xs v - freq ys v|

/-- `predictions_series = pd.Series(predictions, index=test_indices)`
(fitness.py line 30): the prediction values keyed by the test indices. -/
def predictions_series (test_indices : List Nat) (predictions : List Int) :
    List (Nat × Int) :=
  test_indices.zip predictions

/-- `predictions_series.loc[i]` as an optional value: the entry of the series
keyed by `i`, when there is one. -/
def seriesAt (s : List (Nat × Int)) (i : Nat) : Option Int :=
  (s.find? (fun p => p.1 == i)).map Prod.snd

/-- `positive_indices = test_indices[test_data.loc[test_indices, target_column] == 1]`
(fitness.py line 33): the test indices whose row has target value 1. -/
def positive_indices (test_data : List Row) (test_indices : List Nat) : List Nat :=
  test_indices.filter (fun i => (getRow test_data i).any (fun r => r.target == 1))

/-- `predictions_aligned = predictions_series.loc[positive_indices]`
(fitness.py line 36): the prediction values at the positive indices. -/
def predictions_aligned (test_data : List Row) (test_indices : List Nat)
    (predictions : List Int) : List Int :=
  (positive_indices test_data test_indices).filterMap
    (seriesAt (predictions_series test_indices predictions))

/-- The series whose normalized value counts the code names `actual_positive`
(fitness.py line 39): `test_data.loc[positive_indices, protected_attribute]`,
the protected-attribute values of the rows with a positive target. -/
def actual_positive_values (test_data : List Row) (test_indices : List Nat) :
    List Int :=
  (positive_indices test_data test_indices).filterMap
    (fun i => (getRow test_data i).map Row.protected_attribute)

/-- The series whose normalized value counts the code names `predicted_positive`
(fitness.py line 40): `predictions_aligned` itself, so the values being tallied
are the *prediction* values at the positive indices. -/
def predicted_positive_values (test_data : List Row) (test_indices : List Nat)
    (predictions : List Int) : List Int :=
  predictions_aligned test_data test_indices predictions

/-- Modelled from the spec's words (§4.1 step 5), for comparison with
`predicted_positive_values`: "the normalized frequency distribution of the
protected attribute's values among rows in the aligned-predictions subset",
i.e. the protected-attribute value of each row of the aligned subset, taken
from the original dataset. -/
def predicted_positive_values_spec (test_data : List Row)
    (test_indices : List Nat) : List Int :=
  (positive_indices test_data test_indices).filterMap
    (fun i => (getRow test_data i).map Row.protected_attribute)

/-- The series whose normalized value counts the code names `true_positives`
(fitness.py lines 50-51):
`test_data[(test_data[target_column] == 1) & (predictions_series == 1)][protected_attribute]`.
The boolean mask `predictions_series == 1` is aligned to the dataset's index,
a row without a prediction entry contributing `False`. -/
def true_positives_values (test_data : List Row) (test_indices : List Nat)
    (predictions : List Int) : List Int :=
  (test_data.filter (fun r => r.target == 1 &&
      seriesAt (predictions_series test_indices predictions) r.idx == some 1)).map
    Row.protected_attribute

/-- The dictionary returned by `fairness_metrics` (fitness.py lines 54-58). -/
structure FairnessReport where
  disparity : ℚ
  statistical_parity : ℚ
  equal_opportunity : ℚ
deriving DecidableEq, Repr

/-- `fairness_metrics(test_data, test_indices, protected_attribute, predictions,
target_column)` (fitness.py lines 15-58).  The two string arguments select the
protected-attribute and target columns and are fixed by the `Row` structure.
`disparity = np.abs(actual_positive - predicted_positive).sum()`,
`statistical_parity = np.abs(predicted_positive_rate - actual_positive).sum()`
with `predicted_positive_rate` the same value counts as `predicted_positive`,
and `equal_opportunity = np.abs(true_positives - actual_positive).sum()`. -/
def fairness_metrics (test_data : List Row) (test_indices : List Nat)
    (predictions : List Int) : FairnessReport :=
  let actual_positive := actual_positive_values test_data test_indices
  let predicted_positive := predicted_positive_values test_data test_indices predictions
  let true_positives := true_positives_values test_data test_indices predictions
  { disparity := absDiffSum actual_positive predicted_positive
    statistical_parity := absDiffSum predicted_positive actual_positive
    equal_opportunity := absDiffSum true_positives actual_positive }

/-- The constructor arguments of the sklearn classifier chosen by `fitness`
(fitness.py lines 85-94): the classifier's name and the keyword arguments the
code passes; an argument the code leaves out keeps the sklearn default,
recorded as `none` — in particular `randomState` is the `random_state`
keyword, which none of the five constructor calls passes. -/
structure ClassifierConfig where
  name : String
  maxIter : Option Nat := none
  solver : Option String := none
  randomState : Option Nat := none
deriving DecidableEq, Repr

/-- The five supported model identifiers of `fitness` (fitness.py lines 85-94). -/
def supportedModels : List String :=
  ["logistic_regression", "random_forest", "svm", "knn", "gradient_boosting"]

/-- The `if/elif` chain of `fitness` choosing the classifier (fitness.py lines
85-94).  The chain has no `else` branch: for any other string the local
variable `classifier` is never bound and the later `classifier.fit` call
raises, which the embedding records as `none`. -/
def selectClassifier (model : String) : Option ClassifierConfig :=
  if model = "logistic_regression" then
    some { name := "LogisticRegression", maxIter := some 1000, solver := some "liblinear" }
  else if model = "random_forest" then
    some { name := "RandomForestClassifier" }
  else if model = "svm" then
    some { name := "SVC" }
  else if model = "knn" then
    some { name := "KNeighborsClassifier" }
  else if model = "gradient_boosting" then
    some { name := "GradientBoostingClassifier" }
  else
    none

/-- The arguments `fitness` passes to `train_test_split` (fitness.py line 82):
`test_size=0.2, random_state=42`. -/
structure SplitConfig where
  testSize : ℚ
  randomState : Option Nat
deriving DecidableEq, Repr

/-- The split configuration used by `fitness` (fitness.py line 82). -/
def fitnessSplitConfig : SplitConfig :=
  { testSize := 1/5, randomState := some 42 }

/-- What the external sklearn calls return for one trained model: the
predictions on the evaluation rows and the four classification metrics
(accuracy, weighted precision, weighted recall, weighted f1) computed from
them (fitness.py lines 97-104 and 161-164). -/
structure EvalOutcome where
  y_pred : List Int
  accuracy : ℚ
  precision : ℚ
  recall_score : ℚ
  f1 : ℚ

/-- `performance_score = (accuracy + precision + recall + f1) / 4`
(fitness.py line 110); the python variable `recall` is written `recall_score`
here because `recall` is reserved in this development's ambient library. -/
def performance_score (accuracy precision recall_score f1 : ℚ) : ℚ :=
  (accuracy + precision + recall_score + f1) / 4

/-- `fairness_score = sum(fairness.values())` (fitness.py line 113). -/
def fairness_score (r : FairnessReport) : ℚ :=
  r.disparity + r.statistical_parity + r.equal_opportunity

/-- `fitness_value = (1 - performance_score) + fairness_score`
(fitness.py line 116). -/
def fitness_value (performance fairness : ℚ) : ℚ :=
  (1 - performance) + fairness

/-- The failure of `fitness` on a model string outside the five-element set:
in python the unbound local `classifier` raises at `classifier.fit`. -/
inductive FitnessError
  | unsupportedModelKind
deriving DecidableEq, Repr

/-- `fitness(data, technique, model, protected_attribute, target_column)`
(fitness.py lines 61-117).  Data preparation, training and prediction are
external calls, abstracted by `evalModel`, which maps the chosen classifier
configuration to its predictions and the four sklearn metric values;
`test_data`/`test_indices` stand for the prepared dataset and the index of
the test partition `X_test`.  The fairness report and the final scalar are
computed by the repository's own code, embedded above. -/
def fitness (test_data : List Row) (test_indices : List Nat) (model : String)
    (evalModel : ClassifierConfig → EvalOutcome) : Except FitnessError ℚ :=
  match selectClassifier model with
  | none => .error .unsupportedModelKind
  | some cfg =>
      let o := evalModel cfg
      let fairness := fairness_metrics test_data test_indices o.y_pred
      .ok (fitness_value (performance_score o.accuracy o.precision o.recall_score o.f1)
            (fairness_score fairness))

/-- The three technique identifiers `fitness_model_optimization` dispatches on
(fitness.py lines 144-149); any other identifier hits the `else: continue`. -/
def knownTechniques : List String :=
  ["hyperparameter_tuning", "outcomes_transformation", "outcomes_optimization"]

/-- The fitness value the loop body of `fitness_model_optimization` computes
for one technique's model (fitness.py lines 153-172), given the predictions
and sklearn metric values of that model: the same formula as `fitness`, with
the fairness report computed by `fairness_metrics(X_df, X.index, ...)`. -/
def techniqueFitness (X_df : List Row) (X_index : List Nat) (o : EvalOutcome) : ℚ :=
  fitness_value (performance_score o.accuracy o.precision o.recall_score o.f1)
    (fairness_score (fairness_metrics X_df X_index o.y_pred))

/-- One iteration of the loop of `fitness_model_optimization` (fitness.py
lines 143-177) acting on the accumulator `(best_model, best_fitness)`.
`best_fitness` starts at `float('inf')`, embedded as `⊤ : WithTop ℚ`.
An identifier outside `knownTechniques` hits `else: continue`, leaving the
accumulator unchanged; otherwise the external technique constructor and the
prediction/metric calls, abstracted by `evalTechnique`, produce the current
model and its outcome, and the accumulator is replaced exactly when the
technique's fitness value is strictly smaller than `best_fitness`. -/
def optStep {M : Type} (X_df : List Row) (X_index : List Nat)
    (evalTechnique : String → M × EvalOutcome)
    (acc : Option M × WithTop ℚ) (technique : String) : Option M × WithTop ℚ :=
  if technique ∈ knownTechniques then
    let r := evalTechnique technique
    let fv := techniqueFitness X_df X_index r.2
    if (fv : WithTop ℚ) < acc.2 then (some r.1, (fv : WithTop ℚ)) else acc
  else acc

/-- `fitness_model_optimization(model, techniques, X, y, protected_attribute,
output_dir, X_df)` (fitness.py lines 120-179): starting from
`best_fitness = float('inf')`, `best_model = None`, fold the loop body over
the technique list and return `(best_model, best_fitness)`. -/
def fitness_model_optimization {M : Type} (X_df : List Row) (X_index : List Nat)
    (evalTechnique : String → M × EvalOutcome) (techniques : List String) :
    Option M × WithTop ℚ :=
  techniques.foldl (optStep X_df X_index evalTechnique) (none, ⊤)

/-- A trivial oracle for concrete instantiations: every technique yields the
same model `()` with empty predictions and all four metrics `1/2`. -/
def trivialEval : String → Unit × EvalOutcome :=
  fun _ => ((), ⟨[], 1/2, 1/2, 1/2, 1/2⟩)

/-- A trivial model oracle for concrete instantiations of `fitness`. -/
def constModelEval : ClassifierConfig → EvalOutcome :=
  fun _ => ⟨[], 1/2, 1/2, 1/2, 1/2⟩


/-! ### Helper lemmas -/

/-- A normalized frequency is non-negative. -/
lemma freq_nonneg (xs : List Int) (v : Int) : 0 ≤ freq xs v := by
  unfold freq
  positivity

/-- `absDiffSum` is symmetric in its two series. -/
lemma absDiffSum_comm (xs ys : List Int) : absDiffSum xs ys = absDiffSum ys xs := by
  unfold absDiffSum
  rw [Finset.inter_comm]
  exact Finset.sum_congr rfl (fun v _ => abs_sub_comm _ _)

/-- `absDiffSum` with an empty left series is zero. -/
lemma absDiffSum_nil_left (ys : List Int) : absDiffSum [] ys = 0 := by
  simp [absDiffSum]

/-- `absDiffSum` with an empty right series is zero. -/
lemma absDiffSum_nil_right (xs : List Int) : absDiffSum xs [] = 0 := by
  simp [absDiffSum]

/-- `absDiffSum` is non-negative: it is a sum of absolute values. -/
lemma absDiffSum_nonneg (xs ys : List Int) : 0 ≤ absDiffSum xs ys :=
  Finset.sum_nonneg (fun _ _ => abs_nonneg _)

/-- The normalized value counts of a series sum to at most 1 (exactly 1 for a
non-empty series, 0 for the empty one). -/
lemma sum_freq_toFinset_le_one (xs : List Int) :
    ∑ v ∈ xs.toFinset, freq xs v ≤ 1 := by
  unfold freq
  rw [← Finset.sum_div]
  rcases xs with _ | ⟨a, l⟩
  · simp
  · have hcount : ∑ v ∈ (a :: l).toFinset, ((a :: l).count v : ℚ) =
        ((a :: l).length : ℚ) := by
      rw [← Nat.cast_sum]
      norm_cast
      simpa using Multiset.toFinset_sum_count_eq (Multiset.ofList (a :: l))
    have hpos : (0 : ℚ) < ((a :: l).length : ℚ) := by
      exact_mod_cast Nat.succ_pos l.length
    rw [hcount, div_self (ne_of_gt hpos)]

/-- Over any subfinset of its keys, the normalized value counts of a series
sum to at most 1. -/
lemma sum_freq_subset_le_one (xs : List Int) (s : Finset Int)
    (hs : s ⊆ xs.toFinset) : ∑ v ∈ s, freq xs v ≤ 1 :=
  le_trans
    (Finset.sum_le_sum_of_subset_of_nonneg hs (fun v _ _ => freq_nonneg xs v))
    (sum_freq_toFinset_le_one xs)

/-- `absDiffSum` of two series is at most 2: each side contributes a total
frequency mass of at most 1. -/
lemma absDiffSum_le_two (xs ys : List Int) : absDiffSum xs ys ≤ 2 := by
  unfold absDiffSum
  have hstep : ∑ v ∈ xs.toFinset ∩ ys.toFinset, |freq xs v - freq ys v| ≤
      ∑ v ∈ xs.toFinset ∩ ys.toFinset, (freq xs v + freq ys v) := by
    refine Finset.sum_le_sum (fun v _ => ?_)
    calc |freq xs v - freq ys v| ≤ |freq xs v| + |freq ys v| := abs_sub _ _
      _ = freq xs v + freq ys v := by
          rw [abs_of_nonneg (freq_nonneg xs v), abs_of_nonneg (freq_nonneg ys v)]
  rw [Finset.sum_add_distrib] at hstep
  have hx := sum_freq_subset_le_one xs (xs.toFinset ∩ ys.toFinset)
    Finset.inter_subset_left
  have hy := sum_freq_subset_le_one ys (xs.toFinset ∩ ys.toFinset)
    Finset.inter_subset_right
  linarith

/-- The three fields of any fairness report are non-negative, hence so is the
fairness score. -/
lemma fairness_score_nonneg (test_data : List Row) (test_indices : List Nat)
    (predictions : List Int) :
    0 ≤ fairness_score (fairness_metrics test_data test_indices predictions) := by
  unfold fairness_score fairness_metrics
  have h1 := absDiffSum_nonneg (actual_positive_values test_data test_indices)
    (predicted_positive_values test_data test_indices predictions)
  have h2 := absDiffSum_nonneg (predicted_positive_values test_data test_indices predictions)
    (actual_positive_values test_data test_indices)
  have h3 := absDiffSum_nonneg (true_positives_values test_data test_indices predictions)
    (actual_positive_values test_data test_indices)
  dsimp only
  linarith

/-! ### C2 -/

/-- **C2.** For every input, the report returned by `fairness_metrics` has
`disparity = statistical_parity`: the two fields are the same
absolute-difference sum over the same pair of normalized distributions,
written in the two orders. -/
theorem fairness_metrics_disparity_eq_statistical_parity
    (test_data : List Row) (test_indices : List Nat) (predictions : List Int) :
    (fairness_metrics test_data test_indices predictions).disparity =
      (fairness_metrics test_data test_indices predictions).statistical_parity := by
  unfold fairness_metrics
  exact absDiffSum_comm _ _

/-! ### C4 -/

/-- **C4.** When no evaluation-index row has target value 1 (the
positive-class subset is empty), `fairness_metrics` returns the report with
all three fields zero, whatever the predictions are; the embedding is a total
function, so no error is raised. -/
theorem fairness_metrics_empty_positive (test_data : List Row)
    (test_indices : List Nat) (predictions : List Int)
    (h : positive_indices test_data test_indices = []) :
    fairness_metrics test_data test_indices predictions = ⟨0, 0, 0⟩ := by
  have ha : actual_positive_values test_data test_indices = [] := by
    unfold actual_positive_values
    rw [h]
    rfl
  unfold fairness_metrics
  rw [ha]
  simp [absDiffSum_nil_left, absDiffSum_nil_right]

/-- Witness for C4 at a concrete input: one test row with target 0 and a
positive prediction. -/
theorem fairness_metrics_empty_positive_witness :
    fairness_metrics [⟨0, 0, 0⟩] [0] [1] = ⟨0, 0, 0⟩ :=
  fairness_metrics_empty_positive [⟨0, 0, 0⟩] [0] [1] rfl

/-- `absDiffSum` of a series with itself is zero. -/
lemma absDiffSum_self (xs : List Int) : absDiffSum xs xs = 0 := by
  unfold absDiffSum
  exact Finset.sum_eq_zero (fun v _ => by simp)

/-- Concrete evaluation shared by the C1 and C3 analyses:
the absolute-difference sum of the distributions of `[0, 1]` and `[1, 1]`. -/
lemma absDiffSum_zero_one_one_one : absDiffSum [0, 1] [1, 1] = 1/2 := by
  unfold absDiffSum
  rw [show (([0, 1] : List Int).toFinset ∩ ([1, 1] : List Int).toFinset) = {1} by decide,
    Finset.sum_singleton]
  norm_num [freq]

/-! ### C1 -/

/-- **C1** fails on the code: at the dataset with rows `(idx 0, protected 0,
target 1)` and `(idx 1, protected 1, target 1)`, evaluation indices `[0, 1]`
and predictions `[1, 1]`, the series tallied for `predicted_positive` is the
prediction series `[1, 1]`, not the protected-attribute series `[0, 1]` that
the claim describes (given here by `predicted_positive_values_spec`, modelled
from the spec words); consequently the disparity the code computes is `1/2`,
while the disparity over the claim described distributions would be `0`. -/
theorem predicted_positive_tallies_prediction_values :
    predicted_positive_values [⟨0, 0, 1⟩, ⟨1, 1, 1⟩] [0, 1] [1, 1] = [1, 1]
    ∧ predicted_positive_values_spec [⟨0, 0, 1⟩, ⟨1, 1, 1⟩] [0, 1] = [0, 1]
    ∧ (fairness_metrics [⟨0, 0, 1⟩, ⟨1, 1, 1⟩] [0, 1] [1, 1]).disparity = 1/2
    ∧ absDiffSum (actual_positive_values [⟨0, 0, 1⟩, ⟨1, 1, 1⟩] [0, 1])
        (predicted_positive_values_spec [⟨0, 0, 1⟩, ⟨1, 1, 1⟩] [0, 1]) = 0 := by
  refine ⟨rfl, rfl, ?_, ?_⟩
  · show absDiffSum [0, 1] [1, 1] = 1/2
    exact absDiffSum_zero_one_one_one
  · show absDiffSum [0, 1] [0, 1] = 0
    exact absDiffSum_self [0, 1]

/-! ### C3 -/

/-- **C3** fails on the code: at the same two-row dataset, the prediction
vector `[1, 1]` equals the true target labels entry-for-entry on the
evaluation indices `[0, 1]` (second conjunct) and the positive-class subset
`[0, 1]` is non-empty (first conjunct), yet the returned report is
`⟨1/2, 1/2, 0⟩`: `equal_opportunity` is 0 as the claim says, but `disparity`
and `statistical_parity` are `1/2`, not 0. -/
theorem perfect_prediction_fairness_report :
    positive_indices [⟨0, 0, 1⟩, ⟨1, 1, 1⟩] [0, 1] = [0, 1]
    ∧ List.filterMap (fun i => (getRow [⟨0, 0, 1⟩, ⟨1, 1, 1⟩] i).map Row.target)
        [0, 1] = [1, 1]
    ∧ fairness_metrics [⟨0, 0, 1⟩, ⟨1, 1, 1⟩] [0, 1] [1, 1] = ⟨1/2, 1/2, 0⟩ := by
  refine ⟨rfl, rfl, ?_⟩
  show (⟨absDiffSum [0, 1] [1, 1], absDiffSum [1, 1] [0, 1],
      absDiffSum [0, 1] [0, 1]⟩ : FairnessReport) = ⟨1/2, 1/2, 0⟩
  rw [absDiffSum_comm [1, 1] [0, 1], absDiffSum_zero_one_one_one,
    absDiffSum_self [0, 1]]


/-- The classifier selection yields no classifier exactly for a model string
outside the five supported identifiers. -/
lemma selectClassifier_eq_none_iff (model : String) :
    selectClassifier model = none ↔ model ∉ supportedModels := by
  unfold selectClassifier supportedModels
  split_ifs with h1 h2 h3 h4 h5 <;> simp_all

/-! ### C5 -/

/-- **C5.** `fitness` fails with the unsupported-model-kind error exactly when
its model argument is outside the five supported identifiers; for the five
identifiers no such error occurs.  (In the python code the failure is the
exception raised at `classifier.fit` because no branch of the `if/elif` chain
bound `classifier`.) -/
theorem fitness_unsupported_model_iff (test_data : List Row)
    (test_indices : List Nat) (evalModel : ClassifierConfig → EvalOutcome)
    (model : String) :
    fitness test_data test_indices model evalModel =
        .error .unsupportedModelKind ↔ model ∉ supportedModels := by
  rw [← selectClassifier_eq_none_iff]
  unfold fitness
  cases h : selectClassifier model <;> simp

/-! ### C6 -/

/-- **C6.** A technique identifier outside the three-element dispatch set is
skipped silently: the loop step leaves the accumulator unchanged; on the empty
technique list the driver returns `(none, +infinity)`; and on a list holding a
single unknown identifier it returns exactly what it returns on the empty
list. -/
theorem unknown_technique_skipped {M : Type} (X_df : List Row)
    (X_index : List Nat) (evalTechnique : String → M × EvalOutcome)
    (acc : Option M × WithTop ℚ) (t : String) (h : t ∉ knownTechniques) :
    optStep X_df X_index evalTechnique acc t = acc
    ∧ fitness_model_optimization X_df X_index evalTechnique [] = (none, ⊤)
    ∧ fitness_model_optimization X_df X_index evalTechnique [t] =
        fitness_model_optimization X_df X_index evalTechnique [] := by
  refine ⟨?_, rfl, ?_⟩
  · simp [optStep, h]
  · simp [fitness_model_optimization, optStep, h]

/-- Witness for C6 at the unknown identifier `"bogus"` and the trivial
technique oracle. -/
theorem unknown_technique_skipped_witness :
    optStep [] [] trivialEval (none, ⊤) "bogus" = (none, ⊤)
    ∧ fitness_model_optimization [] [] trivialEval [] = (none, ⊤)
    ∧ fitness_model_optimization [] [] trivialEval ["bogus"] =
        fitness_model_optimization [] [] trivialEval [] :=
  unknown_technique_skipped [] [] trivialEval (none, ⊤) "bogus" (by decide)

/-- One loop step never increases the best fitness. -/
lemma optStep_snd_le {M : Type} (X_df : List Row) (X_index : List Nat)
    (evalTechnique : String → M × EvalOutcome) (acc : Option M × WithTop ℚ)
    (t : String) :
    (optStep X_df X_index evalTechnique acc t).2 ≤ acc.2 := by
  by_cases hm : t ∈ knownTechniques
  · by_cases hlt : ((techniqueFitness X_df X_index (evalTechnique t).2 : WithTop ℚ) < acc.2)
    · simp only [optStep, if_pos hm]
      rw [if_pos hlt]
      exact le_of_lt hlt
    · simp only [optStep, if_pos hm]
      rw [if_neg hlt]
  · simp [optStep, hm]

/-- Folding loop steps never increases the best fitness. -/
lemma foldl_optStep_snd_le {M : Type} (X_df : List Row) (X_index : List Nat)
    (evalTechnique : String → M × EvalOutcome) :
    ∀ (ts : List String) (acc : Option M × WithTop ℚ),
      (ts.foldl (optStep X_df X_index evalTechnique) acc).2 ≤ acc.2 := by
  intro ts
  induction ts with
  | nil => intro acc; exact le_refl _
  | cons s ts ih =>
      intro acc
      rw [List.foldl_cons]
      exact le_trans (ih (optStep X_df X_index evalTechnique acc s))
        (optStep_snd_le X_df X_index evalTechnique acc s)

/-- Folding over techniques that are all unknown leaves the accumulator
untouched. -/
lemma foldl_optStep_unknown {M : Type} (X_df : List Row) (X_index : List Nat)
    (evalTechnique : String → M × EvalOutcome) :
    ∀ (ts : List String), (∀ s ∈ ts, s ∉ knownTechniques) →
      ∀ (acc : Option M × WithTop ℚ),
        ts.foldl (optStep X_df X_index evalTechnique) acc = acc := by
  intro ts
  induction ts with
  | nil => intro _ acc; rfl
  | cons s ts ih =>
      intro h acc
      rw [List.foldl_cons]
      have hs : s ∉ knownTechniques := h s (List.mem_cons_self s ts)
      rw [show optStep X_df X_index evalTechnique acc s = acc by simp [optStep, hs]]
      exact ih (fun x hx => h x (List.mem_cons_of_mem s hx)) acc

/-! ### C7 -/

/-- **C7.** The driver accumulator is replaced only on strict improvement (so
on a tie the earlier model is kept), the best fitness is monotone
non-increasing along the iteration, and when the technique list consists of
unknown identifiers `ts₁`, then a known technique `t`, then anything, the
returned best fitness is at most the fitness of `t`, the first technique
actually evaluated. -/
theorem best_fitness_monotone {M : Type} (X_df : List Row) (X_index : List Nat)
    (evalTechnique : String → M × EvalOutcome) (ts₁ ts₂ : List String)
    (t : String) (h₁ : ∀ s ∈ ts₁, s ∉ knownTechniques)
    (h₂ : t ∈ knownTechniques) :
    (∀ (acc : Option M × WithTop ℚ) (s : String),
        ¬ ((techniqueFitness X_df X_index (evalTechnique s).2 : WithTop ℚ) < acc.2) →
        optStep X_df X_index evalTechnique acc s = acc)
    ∧ (∀ (acc : Option M × WithTop ℚ) (ts : List String),
        (ts.foldl (optStep X_df X_index evalTechnique) acc).2 ≤ acc.2)
    ∧ (fitness_model_optimization X_df X_index evalTechnique
        (ts₁ ++ t :: ts₂)).2 ≤
        (techniqueFitness X_df X_index (evalTechnique t).2 : WithTop ℚ) := by
  refine ⟨?_, ?_, ?_⟩
  · intro acc s hnlt
    by_cases hm : s ∈ knownTechniques
    · simp only [optStep, if_pos hm]
      rw [if_neg hnlt]
    · simp [optStep, hm]
  · intro acc ts
    exact foldl_optStep_snd_le X_df X_index evalTechnique ts acc
  · unfold fitness_model_optimization
    rw [List.foldl_append,
      foldl_optStep_unknown X_df X_index evalTechnique ts₁ h₁ (none, ⊤),
      List.foldl_cons]
    have hstep : optStep X_df X_index evalTechnique (none, ⊤) t =
        (some (evalTechnique t).1,
          (techniqueFitness X_df X_index (evalTechnique t).2 : WithTop ℚ)) := by
      simp only [optStep, if_pos h₂]
      rw [if_pos (WithTop.coe_lt_top _)]
    rw [hstep]
    exact foldl_optStep_snd_le X_df X_index evalTechnique ts₂ _

/-- Witness for C7: one unknown identifier followed by hyperparameter tuning,
with the trivial technique oracle. -/
theorem best_fitness_monotone_witness :
    (∀ (acc : Option Unit × WithTop ℚ) (s : String),
        ¬ ((techniqueFitness [] [] (trivialEval s).2 : WithTop ℚ) < acc.2) →
        optStep [] [] trivialEval acc s = acc)
    ∧ (∀ (acc : Option Unit × WithTop ℚ) (ts : List String),
        (ts.foldl (optStep [] [] trivialEval) acc).2 ≤ acc.2)
    ∧ (fitness_model_optimization [] [] trivialEval
        (["bogus"] ++ "hyperparameter_tuning" :: [])).2 ≤
        (techniqueFitness [] [] (trivialEval "hyperparameter_tuning").2 : WithTop ℚ) :=
  best_fitness_monotone [] [] trivialEval ["bogus"] [] "hyperparameter_tuning"
    (by decide) (by decide)

/-! ### C8 -/

/-- **C8.** For a supported model, `fitness` returns exactly
`(1 - performance_score) + fairness_score` with `performance_score` the mean
of the four classification metrics and `fairness_score` the sum of the three
report fields; when each of the four metrics lies in `[0, 1]`, the
performance score lies in `[0, 1]` and the fitness value is non-negative. -/
theorem fitness_formula_nonneg (test_data : List Row) (test_indices : List Nat)
    (model : String) (evalModel : ClassifierConfig → EvalOutcome)
    (cfg : ClassifierConfig) (hsel : selectClassifier model = some cfg)
    (ha₀ : 0 ≤ (evalModel cfg).accuracy) (ha₁ : (evalModel cfg).accuracy ≤ 1)
    (hp₀ : 0 ≤ (evalModel cfg).precision) (hp₁ : (evalModel cfg).precision ≤ 1)
    (hr₀ : 0 ≤ (evalModel cfg).recall_score) (hr₁ : (evalModel cfg).recall_score ≤ 1)
    (hf₀ : 0 ≤ (evalModel cfg).f1) (hf₁ : (evalModel cfg).f1 ≤ 1) :
    fitness test_data test_indices model evalModel =
      .ok (fitness_value
            (performance_score (evalModel cfg).accuracy (evalModel cfg).precision
              (evalModel cfg).recall_score (evalModel cfg).f1)
            (fairness_score
              (fairness_metrics test_data test_indices (evalModel cfg).y_pred)))
    ∧ 0 ≤ performance_score (evalModel cfg).accuracy (evalModel cfg).precision
        (evalModel cfg).recall_score (evalModel cfg).f1
    ∧ performance_score (evalModel cfg).accuracy (evalModel cfg).precision
        (evalModel cfg).recall_score (evalModel cfg).f1 ≤ 1
    ∧ 0 ≤ fitness_value
        (performance_score (evalModel cfg).accuracy (evalModel cfg).precision
          (evalModel cfg).recall_score (evalModel cfg).f1)
        (fairness_score
          (fairness_metrics test_data test_indices (evalModel cfg).y_pred)) := by
  have hfs := fairness_score_nonneg test_data test_indices (evalModel cfg).y_pred
  refine ⟨?_, ?_, ?_, ?_⟩
  · unfold fitness
    rw [hsel]
  · unfold performance_score
    linarith
  · unfold performance_score
    linarith
  · unfold fitness_value performance_score
    linarith

/-- Witness for C8 at the model string `"svm"` and the constant oracle whose
four metrics are all `1/2`. -/
theorem fitness_formula_nonneg_witness :
    fitness [] [] "svm" constModelEval =
      .ok (fitness_value
            (performance_score (constModelEval { name := "SVC" }).accuracy
              (constModelEval { name := "SVC" }).precision
              (constModelEval { name := "SVC" }).recall_score
              (constModelEval { name := "SVC" }).f1)
            (fairness_score
              (fairness_metrics [] [] (constModelEval { name := "SVC" }).y_pred)))
    ∧ 0 ≤ performance_score (constModelEval { name := "SVC" }).accuracy
        (constModelEval { name := "SVC" }).precision
        (constModelEval { name := "SVC" }).recall_score
        (constModelEval { name := "SVC" }).f1
    ∧ performance_score (constModelEval { name := "SVC" }).accuracy
        (constModelEval { name := "SVC" }).precision
        (constModelEval { name := "SVC" }).recall_score
        (constModelEval { name := "SVC" }).f1 ≤ 1
    ∧ 0 ≤ fitness_value
        (performance_score (constModelEval { name := "SVC" }).accuracy
          (constModelEval { name := "SVC" }).precision
          (constModelEval { name := "SVC" }).recall_score
          (constModelEval { name := "SVC" }).f1)
        (fairness_score
          (fairness_metrics [] [] (constModelEval { name := "SVC" }).y_pred)) :=
  fitness_formula_nonneg [] [] "svm" constModelEval { name := "SVC" } rfl
    (by norm_num [constModelEval]) (by norm_num [constModelEval])
    (by norm_num [constModelEval]) (by norm_num [constModelEval])
    (by norm_num [constModelEval]) (by norm_num [constModelEval])
    (by norm_num [constModelEval]) (by norm_num [constModelEval])

/-! ### C9 -/

/-- **C9** fails on the code: the `random_forest` branch constructs
`RandomForestClassifier()` with no `random_state` argument, so the randomized
classifier initialization is not seeded. -/
theorem random_forest_unseeded :
    ∃ cfg, selectClassifier "random_forest" = some cfg
      ∧ cfg.randomState = none :=
  ⟨{ name := "RandomForestClassifier" }, rfl, rfl⟩

/-- **C9 amended.** The train/test split of `fitness` does use the fixed
80/20 ratio with the fixed seed 42, so the split is reproducible; but every
classifier construction passes no `random_state` at all, so determinism of
the randomized classifiers is not established by seeding. -/
theorem split_seeded_classifiers_unseeded :
    fitnessSplitConfig.testSize = 1/5
    ∧ fitnessSplitConfig.randomState = some 42
    ∧ ∀ (model : String) (cfg : ClassifierConfig),
        selectClassifier model = some cfg → cfg.randomState = none := by
  refine ⟨rfl, rfl, ?_⟩
  intro model cfg h
  unfold selectClassifier at h
  split_ifs at h
  all_goals
    first
    | exact Option.noConfusion h
    | (have h2 := Option.some.inj h
       subst h2
       rfl)

/-! ### C10 -/

/-- **C10.** Each field of the fairness report is at most 2 (each normalized
distribution carries total mass at most 1), so the fairness score is at most
6, and when the four classification metrics lie in `[0, 1]` the fitness value
is at most 7. -/
theorem fairness_report_bounded (test_data : List Row) (test_indices : List Nat)
    (predictions : List Int) (accuracy precision recall_score f1 : ℚ)
    (ha₀ : 0 ≤ accuracy) (ha₁ : accuracy ≤ 1)
    (hp₀ : 0 ≤ precision) (hp₁ : precision ≤ 1)
    (hr₀ : 0 ≤ recall_score) (hr₁ : recall_score ≤ 1)
    (hf₀ : 0 ≤ f1) (hf₁ : f1 ≤ 1) :
    (fairness_metrics test_data test_indices predictions).disparity ≤ 2
    ∧ (fairness_metrics test_data test_indices predictions).statistical_parity ≤ 2
    ∧ (fairness_metrics test_data test_indices predictions).equal_opportunity ≤ 2
    ∧ fairness_score (fairness_metrics test_data test_indices predictions) ≤ 6
    ∧ fitness_value (performance_score accuracy precision recall_score f1)
        (fairness_score (fairness_metrics test_data test_indices predictions)) ≤ 7 := by
  have h1 : (fairness_metrics test_data test_indices predictions).disparity ≤ 2 :=
    absDiffSum_le_two _ _
  have h2 : (fairness_metrics test_data test_indices predictions).statistical_parity ≤ 2 :=
    absDiffSum_le_two _ _
  have h3 : (fairness_metrics test_data test_indices predictions).equal_opportunity ≤ 2 :=
    absDiffSum_le_two _ _
  have h4 : fairness_score (fairness_metrics test_data test_indices predictions) ≤ 6 := by
    unfold fairness_score
    linarith
  refine ⟨h1, h2, h3, h4, ?_⟩
  unfold fitness_value performance_score
  linarith

/-- Witness for C10 at the empty dataset and the four metrics all `1/2`. -/
theorem fairness_report_bounded_witness :
    (fairness_metrics [] [] []).disparity ≤ 2
    ∧ (fairness_metrics [] [] []).statistical_parity ≤ 2
    ∧ (fairness_metrics [] [] []).equal_opportunity ≤ 2
    ∧ fairness_score (fairness_metrics [] [] []) ≤ 6
    ∧ fitness_value (performance_score (1/2) (1/2) (1/2) (1/2))
        (fairness_score (fairness_metrics [] [] [])) ≤ 7 :=
  fairness_report_bounded [] [] [] (1/2) (1/2) (1/2) (1/2)
    (by norm_num) (by norm_num) (by norm_num) (by norm_num)
    (by norm_num) (by norm_num) (by norm_num) (by norm_num)

end GeneticFairness
